import Mathlib

/-!
Shallow embedding of `pkg/testfixtures/storage/mysql.go` (package `storage`):
the MySQL test-container provisioner.  External effects (the Docker client,
the SQL driver, the migration runner) are modelled by an environment `Env`
of injected call outcomes; a run produces the (unchanged) receiver, a trace
of the externally visible events, and either a returned container descriptor
or a fatal test failure (`require.NoError` / `t.Fatalf` both abort the test).
-/

/-- `mySQLImage` constant (mysql.go line 25). -/
def mySQLImage : String := "mysql:latest"

/-- struct `mySQLTestContainer` (mysql.go lines 28-32): `conn *sql.DB`
(`none` models a nil handle), `addr string`, `creds string`. -/
structure mySQLTestContainer where
  conn : Option Nat
  addr : String
  creds : String
deriving Repr, DecidableEq

/-- `NewMySQLTestContainer` (mysql.go lines 36-38): returns the zero value
`&mySQLTestContainer\x7b\x7d` (nil conn, empty addr and creds). -/
def NewMySQLTestContainer : mySQLTestContainer :=
  { conn := none, addr := "", creds := "" }

/-- `GetConnectionURI` (mysql.go lines 169-176):
`fmt.Sprintf("%s@tcp(%s)/%s?parseTime=true", m.creds, m.addr, "defaultdb")`. -/
def GetConnectionURI (m : mySQLTestContainer) : String :=
  m.creds ++ "@tcp(" ++ m.addr ++ ")/" ++ "defaultdb" ++ "?parseTime=true"

/-- Outcome of a `dockerClient.ContainerStop` call: success, a not-found
error (`client.IsErrNotFound`), or any other error. -/
inductive StopOutcome where
  | ok
  | notFound
  | errMsg (msg : String)
deriving Repr, DecidableEq

/-- Externally visible events of a provisioning run, in order. -/
inductive Event where
  | imagePull (image : String)
  | containerCreate (envVars : List String) (exposedPort : String) (image : String)
      (autoRemove : Bool) (publishAllPorts : Bool) (bindingPort : String)
      (bindingHostPort : String) (name : String)
  | containerStart
  | containerInspect
  | goWatchdog
  | cleanupRegistered
  | sqlOpen (uri : String)
  | ping (uri : String)
  | containerStop (timeoutSeconds : Option Nat)
  | sleepExpire
  | gooseUp
  | fatalf (msg : String)
deriving Repr, DecidableEq

deriving instance DecidableEq for Except

/-- One iteration of the `backoff.Retry` operation (mysql.go lines 131-144):
the outcome of `sql.Open` (a handle, or an error) and of `conn.Ping()`. -/
structure Attempt where
  openResult : Except String Nat
  pingErr : Option String
deriving Repr, DecidableEq

/-- Injected outcomes of every external call made by `RunMySQLTestContainer`,
in program order.  `portsEntry` models `containerJSON.NetworkSettings.Ports["3306/tcp"]`
(`none` for a missing key, otherwise the list of `HostPort` strings);
`attempts` are the outcomes of the successive connection attempts that fit
inside the 60-second backoff budget (exhausting the list without a success
models the budget elapsing). -/
structure Env where
  newClientErr : Option String
  imagePullErr : Option String
  copyErr : Option String
  newStringErr : Option String
  ulid : String
  createErr : Option String
  startErr : Option String
  stopOutcome : StopOutcome
  inspectErr : Option String
  portsEntry : Option (List String)
  attempts : List Attempt
  gooseOpenErr : Option String
  setDialectErr : Option String
  gooseUpErr : Option String
deriving Repr, DecidableEq

/-- Result of a run: the returned `DatastoreTestContainer`, or a fatal test
failure (`t.Fatalf` / `require.NoError`). -/
inductive RunResult where
  | ok (c : mySQLTestContainer)
  | fatal (msg : String)
deriving Repr, DecidableEq

/-- `backoffPolicy.MaxElapsedTime = 60 * time.Second` (mysql.go line 128). -/
def maxElapsedTimeSeconds : Nat := 60

/-- The `ContainerCreate` call (mysql.go lines 53-79) with its fixed
`containerCfg` (env `MYSQL_DATABASE=defaultdb`, `MYSQL_ROOT_PASSWORD=secret`;
exposed port `3306/tcp`; image `mysql:latest`) and `hostCfg`
(`AutoRemove: true`, `PublishAllPorts: false`, binding `3306/tcp -> 3306`),
and the container name `mysql-<ulid>`. -/
def createEvent (ulid : String) : Event :=
  Event.containerCreate ["MYSQL_DATABASE=defaultdb", "MYSQL_ROOT_PASSWORD=secret"]
    "3306/tcp" mySQLImage true false "3306/tcp" "3306" ("mysql-" ++ ulid)

/-- The `stopContainer` closure (mysql.go lines 82-90): `ContainerStop` with a
5-second timeout; a not-found error is tolerated, any other error is
`t.Fatalf` (returned as `some msg`). -/
def stopContainer (o : StopOutcome) : List Event × Option String :=
  ([Event.containerStop (some 5)],
   match o with
   | StopOutcome.ok => none
   | StopOutcome.notFound => none
   | StopOutcome.errMsg e => some ("failed to stop mysql container: " ++ e))

/-- The watchdog goroutine body (mysql.go lines 107-114): sleep for
`expireTimeout` (a constant defined elsewhere in the repository), then
`ContainerStop` with a nil timeout; not-found tolerated, any other error is
`t.Fatalf`. -/
def watchdogBody (o : StopOutcome) : List Event × Option String :=
  ([Event.sleepExpire, Event.containerStop none],
   match o with
   | StopOutcome.ok => none
   | StopOutcome.notFound => none
   | StopOutcome.errMsg e => some ("failed to expire mysql container: " ++ e))

/-- The local `mySQLTestContainer` literal built after port discovery
(mysql.go lines 120-123): nil conn, `addr = "localhost:" + p[0].HostPort`,
`creds = "root:secret"`. -/
def containerFromPort (hostPort : String) : mySQLTestContainer :=
  { conn := none, addr := "localhost:" ++ hostPort, creds := "root:secret" }

/-- The `uri` local (mysql.go line 125):
`fmt.Sprintf("%s@tcp(%s)/defaultdb?parseTime=true", creds, addr)`. -/
def uriFor (c : mySQLTestContainer) : String :=
  c.creds ++ "@tcp(" ++ c.addr ++ ")/defaultdb?parseTime=true"

/-- `backoff.Retry` of the connection operation (mysql.go lines 130-146):
each attempt assigns `conn` from `sql.Open` (nil on open error) and pings;
the first fully successful attempt stops the loop; exhausting the budgeted
attempts yields an error (the concrete error string is abstracted — only its
presence matters to the caller).  Returns the container state after the loop,
the loop's error, and the attempts' events. -/
def backoffRetry (c : mySQLTestContainer) (uri : String) :
    List Attempt → mySQLTestContainer × Option String × List Event
  | [] => (c, some "backoff retry budget exhausted", [])
  | a :: rest =>
    match a.openResult with
    | Except.error _ =>
      let r := backoffRetry { c with conn := none } uri rest
      (r.1, r.2.1, Event.sqlOpen uri :: r.2.2)
    | Except.ok h =>
      match a.pingErr with
      | some _ =>
        let r := backoffRetry { c with conn := some h } uri rest
        (r.1, r.2.1, Event.sqlOpen uri :: Event.ping uri :: r.2.2)
      | none => ({ c with conn := some h }, none, [Event.sqlOpen uri, Event.ping uri])

/-- `RunMySQLTestContainer` (mysql.go lines 43-166).  The receiver `m` is
never read or written by the method body; every step's outcome comes from
`env` in program order.  Returns the receiver after the call, the event
trace, and the result. -/
def RunMySQLTestContainer (m : mySQLTestContainer) (env : Env) :
    mySQLTestContainer × List Event × RunResult :=
  match env.newClientErr with
  | some e => (m, [Event.fatalf e], RunResult.fatal e)
  | none =>
  match env.imagePullErr with
  | some e => (m, [Event.imagePull mySQLImage, Event.fatalf e], RunResult.fatal e)
  | none =>
  match env.copyErr with
  | some e => (m, [Event.imagePull mySQLImage, Event.fatalf e], RunResult.fatal e)
  | none =>
  match env.newStringErr with
  | some e => (m, [Event.imagePull mySQLImage, Event.fatalf e], RunResult.fatal e)
  | none =>
  match env.createErr with
  | some e =>
    (m, [Event.imagePull mySQLImage, createEvent env.ulid,
         Event.fatalf ("failed to create mysql docker container: " ++ e)],
     RunResult.fatal ("failed to create mysql docker container: " ++ e))
  | none =>
  match env.startErr with
  | some e =>
    match stopContainer env.stopOutcome with
    | (sev, some e2) =>
      (m, [Event.imagePull mySQLImage, createEvent env.ulid, Event.containerStart]
            ++ sev ++ [Event.fatalf e2],
       RunResult.fatal e2)
    | (sev, none) =>
      (m, [Event.imagePull mySQLImage, createEvent env.ulid, Event.containerStart]
            ++ sev ++ [Event.fatalf ("failed to start mysql container: " ++ e)],
       RunResult.fatal ("failed to start mysql container: " ++ e))
  | none =>
  match env.inspectErr with
  | some e =>
    (m, [Event.imagePull mySQLImage, createEvent env.ulid, Event.containerStart,
         Event.containerInspect, Event.fatalf e],
     RunResult.fatal e)
  | none =>
  match env.portsEntry with
  | none =>
    (m, [Event.imagePull mySQLImage, createEvent env.ulid, Event.containerStart,
         Event.containerInspect,
         Event.fatalf "failed to get host port mapping from mysql container"],
     RunResult.fatal "failed to get host port mapping from mysql container")
  | some [] =>
    (m, [Event.imagePull mySQLImage, createEvent env.ulid, Event.containerStart,
         Event.containerInspect,
         Event.fatalf "failed to get host port mapping from mysql container"],
     RunResult.fatal "failed to get host port mapping from mysql container")
  | some (hp :: _) =>
    match backoffRetry (containerFromPort hp) (uriFor (containerFromPort hp)) env.attempts with
    | (_, some e, rEvents) =>
      match stopContainer env.stopOutcome with
      | (sev, some e2) =>
        (m, [Event.imagePull mySQLImage, createEvent env.ulid, Event.containerStart,
             Event.containerInspect, Event.goWatchdog, Event.cleanupRegistered]
              ++ rEvents ++ sev ++ [Event.fatalf e2],
         RunResult.fatal e2)
      | (sev, none) =>
        (m, [Event.imagePull mySQLImage, createEvent env.ulid, Event.containerStart,
             Event.containerInspect, Event.goWatchdog, Event.cleanupRegistered]
              ++ rEvents ++ sev
              ++ [Event.fatalf ("failed to connect to mysql container: " ++ e)],
         RunResult.fatal ("failed to connect to mysql container: " ++ e))
    | (cAfter, none, rEvents) =>
      match env.gooseOpenErr with
      | some e =>
        (m, [Event.imagePull mySQLImage, createEvent env.ulid, Event.containerStart,
             Event.containerInspect, Event.goWatchdog, Event.cleanupRegistered]
              ++ rEvents ++ [Event.sqlOpen (uriFor (containerFromPort hp)), Event.fatalf e],
         RunResult.fatal e)
      | none =>
      match env.setDialectErr with
      | some e =>
        (m, [Event.imagePull mySQLImage, createEvent env.ulid, Event.containerStart,
             Event.containerInspect, Event.goWatchdog, Event.cleanupRegistered]
              ++ rEvents ++ [Event.sqlOpen (uriFor (containerFromPort hp)), Event.fatalf e],
         RunResult.fatal e)
      | none =>
      match env.gooseUpErr with
      | some e =>
        (m, [Event.imagePull mySQLImage, createEvent env.ulid, Event.containerStart,
             Event.containerInspect, Event.goWatchdog, Event.cleanupRegistered]
              ++ rEvents ++ [Event.sqlOpen (uriFor (containerFromPort hp)), Event.gooseUp,
                             Event.fatalf e],
         RunResult.fatal e)
      | none =>
        (m, [Event.imagePull mySQLImage, createEvent env.ulid, Event.containerStart,
             Event.containerInspect, Event.goWatchdog, Event.cleanupRegistered]
              ++ rEvents ++ [Event.sqlOpen (uriFor (containerFromPort hp)), Event.gooseUp],
         RunResult.ok cAfter)

/-- The `t.Cleanup` teardown (mysql.go lines 116-118) run twice in a row:
the first call aborts on a non-tolerated error, otherwise the second call
runs. -/
def teardownTwice (o1 o2 : StopOutcome) : List Event × Option String :=
  match stopContainer o1 with
  | (ev1, some msg) => (ev1, some msg)
  | (ev1, none) =>
    match stopContainer o2 with
    | (ev2, f2) => (ev1 ++ ev2, f2)

/-- An environment whose outcomes succeed through port discovery
(client creation, pull, copy, ulid, create, start, inspect all succeed and
the `3306/tcp` port mapping is present and non-empty). -/
def envThroughPortDiscovery (ulid hp : String) (ps : List String) (ats : List Attempt)
    (o : StopOutcome) (go sd gu : Option String) : Env :=
  { newClientErr := none, imagePullErr := none, copyErr := none, newStringErr := none,
    ulid := ulid, createErr := none, startErr := none, stopOutcome := o,
    inspectErr := none, portsEntry := some (hp :: ps), attempts := ats,
    gooseOpenErr := go, setDialectErr := sd, gooseUpErr := gu }

/-- A provisioner state with a live handle and populated address and
credentials ("fully initialized"). -/
def fullyInitialized (c : mySQLTestContainer) : Prop :=
  c.conn ≠ none ∧ c.addr ≠ "" ∧ c.creds ≠ ""

/-- Modelled from the spec: the migration runner (`goose.Up` over the
embedded migration directory, mysql.go lines 155-163) is not among the
provided sources.  Per the spec it is "given an embedded directory of
ordered migration scripts" and "applies all unapplied ones in order".
`ms` is the ordered migration set, `applied` the versions already applied;
the result is the list of migrations run (in order) and the new applied
list. -/
def applyMigrations (ms applied : List Nat) : List Nat × List Nat :=
  let ran := ms.filter (fun v => decide (v ∉ applied))
  (ran, applied ++ ran)

/-- The retry loop only rewrites the `conn` field: address and credentials
pass through unchanged. -/
lemma backoffRetry_addr_creds (c : mySQLTestContainer) (uri : String)
    (l : List Attempt) :
    (backoffRetry c uri l).1.addr = c.addr ∧ (backoffRetry c uri l).1.creds = c.creds := by
  induction l generalizing c with
  | nil => simp [backoffRetry]
  | cons a rest ih =>
    rcases a with ⟨op, pe⟩
    cases op with
    | error e => simpa [backoffRetry] using ih { c with conn := none }
    | ok h =>
      cases pe with
      | some e => simpa [backoffRetry] using ih { c with conn := some h }
      | none => simp [backoffRetry]

/-- When the retry loop reports success, the final state holds a live
connection handle. -/
lemma backoffRetry_conn_some (c : mySQLTestContainer) (uri : String)
    (l : List Attempt) (h : (backoffRetry c uri l).2.1 = none) :
    ∃ n, (backoffRetry c uri l).1.conn = some n := by
  induction l generalizing c with
  | nil => simp [backoffRetry] at h
  | cons a rest ih =>
    rcases a with ⟨op, pe⟩
    cases op with
    | error e =>
      simp only [backoffRetry] at h ⊢
      exact ih { c with conn := none } h
    | ok hdl =>
      cases pe with
      | some e =>
        simp only [backoffRetry] at h ⊢
        exact ih { c with conn := some hdl } h
      | none => exact ⟨hdl, by simp [backoffRetry]⟩

/-- Every event the retry loop emits is an open or a ping against the one
uri it was given. -/
lemma backoffRetry_events (c : mySQLTestContainer) (uri : String)
    (l : List Attempt) :
    ∀ ev ∈ (backoffRetry c uri l).2.2, ev = Event.sqlOpen uri ∨ ev = Event.ping uri := by
  induction l generalizing c with
  | nil => simp [backoffRetry]
  | cons a rest ih =>
    rcases a with ⟨op, pe⟩
    cases op with
    | error e =>
      intro ev hev
      simp only [backoffRetry, List.mem_cons] at hev
      rcases hev with h1 | h2
      · exact Or.inl h1
      · exact ih { c with conn := none } ev h2
    | ok hdl =>
      cases pe with
      | some e =>
        intro ev hev
        simp only [backoffRetry, List.mem_cons] at hev
        rcases hev with h1 | h2 | h3
        · exact Or.inl h1
        · exact Or.inr h2
        · exact ih { c with conn := some hdl } ev h3
      | none =>
        intro ev hev
        simp only [backoffRetry, List.mem_cons] at hev
        rcases hev with h1 | h2 | h3
        · exact Or.inl h1
        · exact Or.inr h2
        · cases h3

/-- `GetConnectionURI` recomputes exactly the string that line 125 builds
from the same fields. -/
lemma getConnectionURI_eq_uriFor (c : mySQLTestContainer) :
    GetConnectionURI c = uriFor c := by
  show c.creds ++ "@tcp(" ++ c.addr ++ ")/" ++ "defaultdb" ++ "?parseTime=true"
      = c.creds ++ "@tcp(" ++ c.addr ++ ")/defaultdb?parseTime=true"
  have h2 : (")/defaultdb?parseTime=true" : String) = ")/" ++ "defaultdb" ++ "?parseTime=true" := rfl
  rw [h2]
  simp only [String.append_assoc]

/-- The uri built after discovering host port `hp`, as one literal format. -/
lemma uriFor_containerFromPort (hp : String) :
    uriFor (containerFromPort hp)
      = "root:secret@tcp(localhost:" ++ hp ++ ")/defaultdb?parseTime=true" := by
  show "root:secret" ++ "@tcp(" ++ ("localhost:" ++ hp) ++ ")/defaultdb?parseTime=true"
      = "root:secret@tcp(localhost:" ++ hp ++ ")/defaultdb?parseTime=true"
  have h1 : "root:secret@tcp(localhost:" = "root:secret" ++ "@tcp(" ++ "localhost:" := rfl
  rw [h1]
  simp only [String.append_assoc]

/-- Inversion of a successful run: a container is returned only when every
step succeeded, and it is exactly the state the retry loop produced. -/
lemma run_ok_inversion (m : mySQLTestContainer) (env : Env) (c : mySQLTestContainer)
    (h : (RunMySQLTestContainer m env).2.2 = RunResult.ok c) :
    env.newClientErr = none ∧ env.imagePullErr = none ∧ env.copyErr = none ∧
    env.newStringErr = none ∧ env.createErr = none ∧ env.startErr = none ∧
    env.inspectErr = none ∧ env.gooseOpenErr = none ∧ env.setDialectErr = none ∧
    env.gooseUpErr = none ∧
    ∃ hp ps, env.portsEntry = some (hp :: ps) ∧
      (backoffRetry (containerFromPort hp) (uriFor (containerFromPort hp)) env.attempts).2.1
        = none ∧
      c = (backoffRetry (containerFromPort hp) (uriFor (containerFromPort hp)) env.attempts).1 := by
  rcases env with ⟨nc, ip, cp, ns, ul, ce, se, so, ie, pe, ats, go, sd, gu⟩
  cases nc with
  | some e => simp [RunMySQLTestContainer] at h
  | none =>
  cases ip with
  | some e => simp [RunMySQLTestContainer] at h
  | none =>
  cases cp with
  | some e => simp [RunMySQLTestContainer] at h
  | none =>
  cases ns with
  | some e => simp [RunMySQLTestContainer] at h
  | none =>
  cases ce with
  | some e => simp [RunMySQLTestContainer] at h
  | none =>
  cases se with
  | some e => cases so <;> simp [RunMySQLTestContainer, stopContainer] at h
  | none =>
  cases ie with
  | some e => simp [RunMySQLTestContainer] at h
  | none =>
  cases pe with
  | none => simp [RunMySQLTestContainer] at h
  | some ports =>
  cases ports with
  | nil => simp [RunMySQLTestContainer] at h
  | cons hp tl =>
  rcases hbr : backoffRetry (containerFromPort hp) (uriFor (containerFromPort hp)) ats
      with ⟨cA, rE, evs⟩
  cases rE with
  | some e =>
    cases so <;>
      simp [RunMySQLTestContainer, stopContainer, hbr] at h
  | none =>
  cases go with
  | some e => simp [RunMySQLTestContainer, hbr] at h
  | none =>
  cases sd with
  | some e => simp [RunMySQLTestContainer, hbr] at h
  | none =>
  cases gu with
  | some e => simp [RunMySQLTestContainer, hbr] at h
  | none =>
    simp only [RunMySQLTestContainer, hbr] at h
    refine ⟨rfl, rfl, rfl, rfl, rfl, rfl, rfl, rfl, rfl, rfl, hp, tl, rfl, ?_, ?_⟩
    · rw [hbr]
    · rw [hbr]
      simpa using h.symm

/-- Claim C1: if the bounded exponential-backoff connection loop exhausts its
budget without a successful ping (the retry returns an error), the run issues
a container-stop call (with the 5-second graceful timeout) and ends in a
fatal test failure, for every stop outcome. -/
theorem mysql_connect_timeout_stops_container_and_fails
    (m : mySQLTestContainer) (ulid hp : String) (ps : List String) (ats : List Attempt)
    (o : StopOutcome) (go sd gu : Option String) (e : String)
    (hto : (backoffRetry (containerFromPort hp) (uriFor (containerFromPort hp)) ats).2.1
        = some e) :
    (∃ msg, (RunMySQLTestContainer m
        (envThroughPortDiscovery ulid hp ps ats o go sd gu)).2.2 = RunResult.fatal msg) ∧
    Event.containerStop (some 5) ∈ (RunMySQLTestContainer m
        (envThroughPortDiscovery ulid hp ps ats o go sd gu)).2.1 := by
  rcases hbr : backoffRetry (containerFromPort hp) (uriFor (containerFromPort hp)) ats
      with ⟨cA, rE, evs⟩
  rw [hbr] at hto
  simp only at hto
  subst hto
  cases o <;>
    simp [RunMySQLTestContainer, envThroughPortDiscovery, stopContainer, hbr]

/-- Witness for C1 at a concrete failing environment. -/
theorem mysql_connect_timeout_stops_container_and_fails_witness :
    (backoffRetry (containerFromPort "3306") (uriFor (containerFromPort "3306"))
        [⟨Except.error "dial refused", none⟩]).2.1 = some "backoff retry budget exhausted" ∧
    ((∃ msg, (RunMySQLTestContainer NewMySQLTestContainer
        (envThroughPortDiscovery "u" "3306" [] [⟨Except.error "dial refused", none⟩]
          StopOutcome.ok none none none)).2.2 = RunResult.fatal msg) ∧
      Event.containerStop (some 5) ∈ (RunMySQLTestContainer NewMySQLTestContainer
        (envThroughPortDiscovery "u" "3306" [] [⟨Except.error "dial refused", none⟩]
          StopOutcome.ok none none none)).2.1) :=
  ⟨by decide,
   mysql_connect_timeout_stops_container_and_fails NewMySQLTestContainer "u" "3306" []
     [⟨Except.error "dial refused", none⟩] StopOutcome.ok none none none
     "backoff retry budget exhausted" (by decide)⟩

/-- Claim C2: a successfully provisioned instance's `GetConnectionURI` is
exactly `root:secret@tcp(localhost:<hostPort>)/defaultdb?parseTime=true`,
and it is identical to the uri used for every open and ping during
provisioning (no drift); as a plain function of the stored fields it is pure
and returns the same string on every call. -/
theorem mysql_connection_uri_no_drift
    (m : mySQLTestContainer) (ulid hp : String) (ps : List String) (ats : List Attempt)
    (o : StopOutcome)
    (hok : (backoffRetry (containerFromPort hp) (uriFor (containerFromPort hp)) ats).2.1
        = none) :
    ∃ c, (RunMySQLTestContainer m
        (envThroughPortDiscovery ulid hp ps ats o none none none)).2.2 = RunResult.ok c ∧
      GetConnectionURI c = "root:secret@tcp(localhost:" ++ hp ++ ")/defaultdb?parseTime=true" ∧
      GetConnectionURI c = uriFor (containerFromPort hp) ∧
      (∀ u, Event.sqlOpen u ∈ (RunMySQLTestContainer m
          (envThroughPortDiscovery ulid hp ps ats o none none none)).2.1
        → u = uriFor (containerFromPort hp)) ∧
      (∀ u, Event.ping u ∈ (RunMySQLTestContainer m
          (envThroughPortDiscovery ulid hp ps ats o none none none)).2.1
        → u = uriFor (containerFromPort hp)) := by
  rcases hbr : backoffRetry (containerFromPort hp) (uriFor (containerFromPort hp)) ats
      with ⟨cA, rE, evs⟩
  rw [hbr] at hok
  simp only at hok
  subst hok
  have hfields := backoffRetry_addr_creds (containerFromPort hp)
    (uriFor (containerFromPort hp)) ats
  rw [hbr] at hfields
  have hevs := backoffRetry_events (containerFromPort hp)
    (uriFor (containerFromPort hp)) ats
  rw [hbr] at hevs
  have haddr : cA.addr = (containerFromPort hp).addr := hfields.1
  have hcreds : cA.creds = (containerFromPort hp).creds := hfields.2
  have huri : GetConnectionURI cA = uriFor (containerFromPort hp) := by
    rw [getConnectionURI_eq_uriFor]
    show cA.creds ++ "@tcp(" ++ cA.addr ++ ")/defaultdb?parseTime=true" = _
    rw [haddr, hcreds]
    rfl
  have htr : (RunMySQLTestContainer m
      (envThroughPortDiscovery ulid hp ps ats o none none none)).2.1
      = [Event.imagePull mySQLImage, createEvent ulid, Event.containerStart,
         Event.containerInspect, Event.goWatchdog, Event.cleanupRegistered]
          ++ evs ++ [Event.sqlOpen (uriFor (containerFromPort hp)), Event.gooseUp] := by
    simp [RunMySQLTestContainer, envThroughPortDiscovery, hbr]
  refine ⟨cA, ?_, ?_, huri, ?_, ?_⟩
  · simp [RunMySQLTestContainer, envThroughPortDiscovery, hbr]
  · rw [huri, uriFor_containerFromPort]
  · intro u hu
    rw [htr] at hu
    rcases List.mem_append.mp hu with h' | h
    · rcases List.mem_append.mp h' with h | h
      · exact absurd h (by simp [createEvent])
      · rcases hevs (Event.sqlOpen u) h with h2 | h2
        · injection h2
        · exact absurd h2 (by simp)
    · simp only [List.mem_cons, List.not_mem_nil, or_false] at h
      rcases h with h | h
      · injection h
      · exact absurd h (by simp)
  · intro u hu
    rw [htr] at hu
    rcases List.mem_append.mp hu with h' | h
    · rcases List.mem_append.mp h' with h | h
      · exact absurd h (by simp [createEvent])
      · rcases hevs (Event.ping u) h with h2 | h2
        · exact absurd h2 (by simp)
        · injection h2
    · simp only [List.mem_cons, List.not_mem_nil, or_false] at h
      rcases h with h | h
      · exact absurd h (by simp)
      · exact absurd h (by simp)

/-- Witness for C2 at a concrete successful environment. -/
theorem mysql_connection_uri_no_drift_witness :
    (backoffRetry (containerFromPort "3306") (uriFor (containerFromPort "3306"))
        [⟨Except.ok 1, none⟩]).2.1 = none ∧
    (∃ c, (RunMySQLTestContainer NewMySQLTestContainer
        (envThroughPortDiscovery "u" "3306" [] [⟨Except.ok 1, none⟩]
          StopOutcome.ok none none none)).2.2 = RunResult.ok c ∧
      GetConnectionURI c = "root:secret@tcp(localhost:" ++ "3306" ++ ")/defaultdb?parseTime=true" ∧
      GetConnectionURI c = uriFor (containerFromPort "3306") ∧
      (∀ u, Event.sqlOpen u ∈ (RunMySQLTestContainer NewMySQLTestContainer
          (envThroughPortDiscovery "u" "3306" [] [⟨Except.ok 1, none⟩]
            StopOutcome.ok none none none)).2.1
        → u = uriFor (containerFromPort "3306")) ∧
      (∀ u, Event.ping u ∈ (RunMySQLTestContainer NewMySQLTestContainer
          (envThroughPortDiscovery "u" "3306" [] [⟨Except.ok 1, none⟩]
            StopOutcome.ok none none none)).2.1
        → u = uriFor (containerFromPort "3306"))) :=
  ⟨by decide,
   mysql_connection_uri_no_drift NewMySQLTestContainer "u" "3306" []
     [⟨Except.ok 1, none⟩] StopOutcome.ok (by decide)⟩

/-- Claim C3: teardown is idempotent — a stop call that finds the container
already gone (not-found) is treated as success and does not fail the test,
so running the teardown twice is safe whenever the first call succeeded. -/
theorem mysql_teardown_idempotent (o1 : StopOutcome)
    (h : (stopContainer o1).2 = none) :
    (stopContainer StopOutcome.notFound).2 = none ∧
    (teardownTwice o1 StopOutcome.notFound).2 = none ∧
    (teardownTwice o1 StopOutcome.notFound).1
      = [Event.containerStop (some 5), Event.containerStop (some 5)] := by
  cases o1 <;> simp_all [stopContainer, teardownTwice]

/-- Witness for C3: first stop succeeds normally, second observes not-found. -/
theorem mysql_teardown_idempotent_witness :
    (stopContainer StopOutcome.ok).2 = none ∧
    ((stopContainer StopOutcome.notFound).2 = none ∧
      (teardownTwice StopOutcome.ok StopOutcome.notFound).2 = none ∧
      (teardownTwice StopOutcome.ok StopOutcome.notFound).1
        = [Event.containerStop (some 5), Event.containerStop (some 5)]) :=
  ⟨rfl, mysql_teardown_idempotent StopOutcome.ok rfl⟩

/-- Counterexample to claim C4 as stated: `NewMySQLTestContainer` hands out a
provisioner that exists but is only partially ready (nil conn, empty addr
and creds), observable through the public constructor and
`GetConnectionURI`. -/
theorem mysql_new_container_partially_ready :
    ¬ fullyInitialized NewMySQLTestContainer ∧
    GetConnectionURI NewMySQLTestContainer = "@tcp()/defaultdb?parseTime=true" := by
  constructor
  · intro hfull
    exact hfull.1 rfl
  · decide

/-- Claim C4 (amended): a provisioner returned by a successful
`RunMySQLTestContainer` is always fully initialized — live connection
handle, populated address and credentials; no failure path returns a
partial instance (failures are fatal). `NewMySQLTestContainer` itself,
however, returns an empty not-yet-ready instance. -/
theorem mysql_success_container_fully_initialized
    (m : mySQLTestContainer) (env : Env) (c : mySQLTestContainer)
    (h : (RunMySQLTestContainer m env).2.2 = RunResult.ok c) :
    fullyInitialized c := by
  obtain ⟨-, -, -, -, -, -, -, -, -, -, hp, ps, hpe, hnone, hc⟩ :=
    run_ok_inversion m env c h
  subst hc
  obtain ⟨n, hconn⟩ := backoffRetry_conn_some (containerFromPort hp)
    (uriFor (containerFromPort hp)) env.attempts hnone
  obtain ⟨haddr, hcreds⟩ := backoffRetry_addr_creds (containerFromPort hp)
    (uriFor (containerFromPort hp)) env.attempts
  refine ⟨by simp [hconn], ?_, ?_⟩
  · rw [haddr]
    show "localhost:" ++ hp ≠ ""
    intro heq
    have hlen := congrArg String.length heq
    simp [String.length_append] at hlen
    exact absurd hlen.1 (by decide)
  · rw [hcreds]
    show "root:secret" ≠ ""
    decide

/-- Witness for C4's amended theorem at a concrete successful run. -/
theorem mysql_success_container_fully_initialized_witness :
    (RunMySQLTestContainer NewMySQLTestContainer
        (envThroughPortDiscovery "u" "3306" [] [⟨Except.ok 1, none⟩]
          StopOutcome.ok none none none)).2.2
      = RunResult.ok ⟨some 1, "localhost:3306", "root:secret"⟩ ∧
    fullyInitialized ⟨some 1, "localhost:3306", "root:secret"⟩ :=
  ⟨by decide,
   mysql_success_container_fully_initialized NewMySQLTestContainer
     (envThroughPortDiscovery "u" "3306" [] [⟨Except.ok 1, none⟩]
       StopOutcome.ok none none none)
     ⟨some 1, "localhost:3306", "root:secret"⟩ (by decide)⟩

/-- Claim C5: on a successful run the trace is exactly image pull, container
create with the fixed environment (`MYSQL_DATABASE=defaultdb`,
`MYSQL_ROOT_PASSWORD=secret`), the `3306` host-port binding and auto-remove,
container start, inspect, then (after the watchdog and cleanup are
installed) the connectivity poll — whose events are only opens and pings —
then the migrations, returning the connection descriptor; and every
graceful stop call carries the 5-second timeout. -/
theorem mysql_run_step_order
    (m : mySQLTestContainer) (ulid hp : String) (ps : List String) (ats : List Attempt)
    (o : StopOutcome) (cA : mySQLTestContainer) (evs : List Event)
    (hbr : backoffRetry (containerFromPort hp) (uriFor (containerFromPort hp)) ats
        = (cA, none, evs)) :
    (RunMySQLTestContainer m (envThroughPortDiscovery ulid hp ps ats o none none none)).2.1
      = [Event.imagePull mySQLImage, createEvent ulid, Event.containerStart,
         Event.containerInspect, Event.goWatchdog, Event.cleanupRegistered]
          ++ evs ++ [Event.sqlOpen (uriFor (containerFromPort hp)), Event.gooseUp] ∧
    (RunMySQLTestContainer m (envThroughPortDiscovery ulid hp ps ats o none none none)).2.2
      = RunResult.ok cA ∧
    (∀ ev ∈ evs, ev = Event.sqlOpen (uriFor (containerFromPort hp))
        ∨ ev = Event.ping (uriFor (containerFromPort hp))) ∧
    (∀ o2, (stopContainer o2).1 = [Event.containerStop (some 5)]) := by
  refine ⟨?_, ?_, ?_, fun o2 => rfl⟩
  · simp [RunMySQLTestContainer, envThroughPortDiscovery, hbr]
  · simp [RunMySQLTestContainer, envThroughPortDiscovery, hbr]
  · have hevs := backoffRetry_events (containerFromPort hp)
      (uriFor (containerFromPort hp)) ats
    rw [hbr] at hevs
    exact hevs

/-- Witness for C5 at a concrete successful environment (one attempt,
open and ping both succeed). -/
theorem mysql_run_step_order_witness :
    backoffRetry (containerFromPort "3306") (uriFor (containerFromPort "3306"))
        [⟨Except.ok 1, none⟩]
      = (⟨some 1, "localhost:3306", "root:secret"⟩, none,
         [Event.sqlOpen (uriFor (containerFromPort "3306")),
          Event.ping (uriFor (containerFromPort "3306"))]) ∧
    (RunMySQLTestContainer NewMySQLTestContainer
        (envThroughPortDiscovery "u" "3306" [] [⟨Except.ok 1, none⟩]
          StopOutcome.ok none none none)).2.1
      = [Event.imagePull mySQLImage, createEvent "u", Event.containerStart,
         Event.containerInspect, Event.goWatchdog, Event.cleanupRegistered]
          ++ [Event.sqlOpen (uriFor (containerFromPort "3306")),
              Event.ping (uriFor (containerFromPort "3306"))]
          ++ [Event.sqlOpen (uriFor (containerFromPort "3306")), Event.gooseUp] ∧
    (RunMySQLTestContainer NewMySQLTestContainer
        (envThroughPortDiscovery "u" "3306" [] [⟨Except.ok 1, none⟩]
          StopOutcome.ok none none none)).2.2
      = RunResult.ok ⟨some 1, "localhost:3306", "root:secret"⟩ :=
  ⟨by decide,
   (mysql_run_step_order NewMySQLTestContainer "u" "3306" [] [⟨Except.ok 1, none⟩]
     StopOutcome.ok ⟨some 1, "localhost:3306", "root:secret"⟩
     [Event.sqlOpen (uriFor (containerFromPort "3306")),
      Event.ping (uriFor (containerFromPort "3306"))] (by decide)).1,
   (mysql_run_step_order NewMySQLTestContainer "u" "3306" [] [⟨Except.ok 1, none⟩]
     StopOutcome.ok ⟨some 1, "localhost:3306", "root:secret"⟩
     [Event.sqlOpen (uriFor (containerFromPort "3306")),
      Event.ping (uriFor (containerFromPort "3306"))] (by decide)).2.1⟩

/-- Claim C6: every run either ends in a fatal test failure or returns a
container — and it returns one only when every setup step succeeded (client,
pull, copy output, ulid, create, start, inspect, a present non-empty
`3306/tcp` port mapping, the connectivity retry, the migration db open, the
dialect, and the migrations).  No failure class is swallowed and none yields
a partial provisioner. -/
theorem mysql_no_failure_swallowed (m : mySQLTestContainer) (env : Env) :
    (∃ msg, (RunMySQLTestContainer m env).2.2 = RunResult.fatal msg) ∨
    (∃ c, (RunMySQLTestContainer m env).2.2 = RunResult.ok c ∧
      env.newClientErr = none ∧ env.imagePullErr = none ∧ env.copyErr = none ∧
      env.newStringErr = none ∧ env.createErr = none ∧ env.startErr = none ∧
      env.inspectErr = none ∧ env.gooseOpenErr = none ∧ env.setDialectErr = none ∧
      env.gooseUpErr = none ∧
      ∃ hp ps, env.portsEntry = some (hp :: ps) ∧
        (backoffRetry (containerFromPort hp) (uriFor (containerFromPort hp))
          env.attempts).2.1 = none) := by
  rcases hres : (RunMySQLTestContainer m env).2.2 with c | msg
  · obtain ⟨h1, h2, h3, h4, h5, h6, h7, h8, h9, h10, hp, ps, hpe, hnone, -⟩ :=
      run_ok_inversion m env c hres
    exact Or.inr ⟨c, rfl, h1, h2, h3, h4, h5, h6, h7, h8, h9, h10, hp, ps, hpe, hnone⟩
  · exact Or.inl ⟨msg, rfl⟩

/-- Claim C7: the watchdog body sleeps for the expiry window and then issues
a container stop (with a nil timeout), treating success and not-found alike
as success; and the watchdog task is installed on every run that passes
port discovery, whatever happens afterwards. -/
theorem mysql_watchdog_stops_container :
    (∀ o, (watchdogBody o).1 = [Event.sleepExpire, Event.containerStop none]) ∧
    (watchdogBody StopOutcome.ok).2 = none ∧
    (watchdogBody StopOutcome.notFound).2 = none ∧
    (∀ (m : mySQLTestContainer) (ulid hp : String) (ps : List String)
        (ats : List Attempt) (o : StopOutcome) (go sd gu : Option String),
      Event.goWatchdog ∈ (RunMySQLTestContainer m
        (envThroughPortDiscovery ulid hp ps ats o go sd gu)).2.1) := by
  refine ⟨fun o => rfl, rfl, rfl, ?_⟩
  intro m ulid hp ps ats o go sd gu
  rcases hbr : backoffRetry (containerFromPort hp) (uriFor (containerFromPort hp)) ats
      with ⟨cA, rE, evs⟩
  cases rE with
  | some e =>
    cases o <;>
      simp [RunMySQLTestContainer, envThroughPortDiscovery, stopContainer, hbr]
  | none =>
    cases go <;> cases sd <;> cases gu <;>
      simp [RunMySQLTestContainer, envThroughPortDiscovery, hbr]

/-- Claim C8 (the migration runner is modelled from the spec, see
`applyMigrations`): applying the migration set runs exactly the unapplied
migrations, keeping the set's order (a sublist of the ordered set); on the
freshly connected (empty) database it runs all of them; and reapplying the
set after any application runs nothing and leaves the applied set unchanged
(idempotence). -/
theorem mysql_migrations_apply_all_then_idempotent (ms applied : List Nat) :
    List.Sublist (applyMigrations ms applied).1 ms ∧
    (applyMigrations ms []).1 = ms ∧
    applyMigrations ms (applyMigrations ms applied).2
      = ([], (applyMigrations ms applied).2) := by
  refine ⟨List.filter_sublist ms, by simp [applyMigrations], ?_⟩
  have hnil : ms.filter
      (fun v => decide (v ∉ applied ++ ms.filter (fun w => decide (w ∉ applied))))
      = [] := by
    rw [List.filter_eq_nil_iff]
    intro v hv
    simp only [decide_eq_true_eq, not_not, List.mem_append, List.mem_filter]
    by_cases hva : v ∈ applied
    · exact Or.inl hva
    · exact Or.inr ⟨hv, by simp [hva]⟩
  simp only [applyMigrations]
  rw [hnil]
  simp

/-- Claim C9: `RunMySQLTestContainer` never mutates its receiver — the
receiver comes back unchanged from every run (so `GetConnectionURI` on it
still reflects its original fields), and any returned descriptor is a fresh
instance built from the discovered port, not the receiver. -/
theorem mysql_run_receiver_unchanged (m : mySQLTestContainer) (env : Env) :
    (RunMySQLTestContainer m env).1 = m ∧
    GetConnectionURI (RunMySQLTestContainer m env).1 = GetConnectionURI m ∧
    (∀ c, (RunMySQLTestContainer m env).2.2 = RunResult.ok c →
      c.creds = "root:secret" ∧ ∃ hp, c.addr = "localhost:" ++ hp) := by
  have hrec : (RunMySQLTestContainer m env).1 = m := by
    unfold RunMySQLTestContainer
    repeat first
    | rfl
    | split
  refine ⟨hrec, by rw [hrec], ?_⟩
  intro c hok
  obtain ⟨-, -, -, -, -, -, -, -, -, -, hp, ps, hpe, hnone, hc⟩ :=
    run_ok_inversion m env c hok
  subst hc
  obtain ⟨haddr, hcreds⟩ := backoffRetry_addr_creds (containerFromPort hp)
    (uriFor (containerFromPort hp)) env.attempts
  exact ⟨hcreds, hp, haddr⟩

/-- Witness for C9 at a concrete successful run: the receiver (the empty
constructor value) is unchanged while the returned descriptor carries the
fresh credentials and address. -/
theorem mysql_run_receiver_unchanged_witness :
    (RunMySQLTestContainer NewMySQLTestContainer
        (envThroughPortDiscovery "u" "3306" [] [⟨Except.ok 1, none⟩]
          StopOutcome.ok none none none)).1 = NewMySQLTestContainer ∧
    GetConnectionURI (RunMySQLTestContainer NewMySQLTestContainer
        (envThroughPortDiscovery "u" "3306" [] [⟨Except.ok 1, none⟩]
          StopOutcome.ok none none none)).1 = GetConnectionURI NewMySQLTestContainer ∧
    (mySQLTestContainer.mk (some 1) "localhost:3306" "root:secret").creds
        = "root:secret" ∧
    (∃ hp, (mySQLTestContainer.mk (some 1) "localhost:3306" "root:secret").addr
        = "localhost:" ++ hp) :=
  ⟨(mysql_run_receiver_unchanged NewMySQLTestContainer
      (envThroughPortDiscovery "u" "3306" [] [⟨Except.ok 1, none⟩]
        StopOutcome.ok none none none)).1,
   (mysql_run_receiver_unchanged NewMySQLTestContainer
      (envThroughPortDiscovery "u" "3306" [] [⟨Except.ok 1, none⟩]
        StopOutcome.ok none none none)).2.1,
   ((mysql_run_receiver_unchanged NewMySQLTestContainer
      (envThroughPortDiscovery "u" "3306" [] [⟨Except.ok 1, none⟩]
        StopOutcome.ok none none none)).2.2
      ⟨some 1, "localhost:3306", "root:secret"⟩ (by decide)).1,
   ((mysql_run_receiver_unchanged NewMySQLTestContainer
      (envThroughPortDiscovery "u" "3306" [] [⟨Except.ok 1, none⟩]
        StopOutcome.ok none none none)).2.2
      ⟨some 1, "localhost:3306", "root:secret"⟩ (by decide)).2⟩

/-- Claim C10: when provisioning fails after the container start but before
port discovery succeeds — inspect fails, the `3306/tcp` mapping is absent,
or it is empty — the run ends fatally without any stop call, and neither
the watchdog nor the cleanup registration appears in the trace. -/
theorem mysql_pre_port_discovery_failure_no_stop
    (m : mySQLTestContainer) (ulid e : String) (o : StopOutcome)
    (pe : Option (List String)) (ats : List Attempt) (go sd gu : Option String) :
    ((RunMySQLTestContainer m
        { newClientErr := none, imagePullErr := none, copyErr := none,
          newStringErr := none, ulid := ulid, createErr := none, startErr := none,
          stopOutcome := o, inspectErr := some e, portsEntry := pe, attempts := ats,
          gooseOpenErr := go, setDialectErr := sd, gooseUpErr := gu }).2.2
        = RunResult.fatal e ∧
      (∀ tmo, Event.containerStop tmo ∉ (RunMySQLTestContainer m
        { newClientErr := none, imagePullErr := none, copyErr := none,
          newStringErr := none, ulid := ulid, createErr := none, startErr := none,
          stopOutcome := o, inspectErr := some e, portsEntry := pe, attempts := ats,
          gooseOpenErr := go, setDialectErr := sd, gooseUpErr := gu }).2.1) ∧
      Event.goWatchdog ∉ (RunMySQLTestContainer m
        { newClientErr := none, imagePullErr := none, copyErr := none,
          newStringErr := none, ulid := ulid, createErr := none, startErr := none,
          stopOutcome := o, inspectErr := some e, portsEntry := pe, attempts := ats,
          gooseOpenErr := go, setDialectErr := sd, gooseUpErr := gu }).2.1 ∧
      Event.cleanupRegistered ∉ (RunMySQLTestContainer m
        { newClientErr := none, imagePullErr := none, copyErr := none,
          newStringErr := none, ulid := ulid, createErr := none, startErr := none,
          stopOutcome := o, inspectErr := some e, portsEntry := pe, attempts := ats,
          gooseOpenErr := go, setDialectErr := sd, gooseUpErr := gu }).2.1) ∧
    (∀ pe2, pe2 = none ∨ pe2 = some [] →
      (RunMySQLTestContainer m
        { newClientErr := none, imagePullErr := none, copyErr := none,
          newStringErr := none, ulid := ulid, createErr := none, startErr := none,
          stopOutcome := o, inspectErr := none, portsEntry := pe2, attempts := ats,
          gooseOpenErr := go, setDialectErr := sd, gooseUpErr := gu }).2.2
        = RunResult.fatal "failed to get host port mapping from mysql container" ∧
      (∀ tmo, Event.containerStop tmo ∉ (RunMySQLTestContainer m
        { newClientErr := none, imagePullErr := none, copyErr := none,
          newStringErr := none, ulid := ulid, createErr := none, startErr := none,
          stopOutcome := o, inspectErr := none, portsEntry := pe2, attempts := ats,
          gooseOpenErr := go, setDialectErr := sd, gooseUpErr := gu }).2.1) ∧
      Event.goWatchdog ∉ (RunMySQLTestContainer m
        { newClientErr := none, imagePullErr := none, copyErr := none,
          newStringErr := none, ulid := ulid, createErr := none, startErr := none,
          stopOutcome := o, inspectErr := none, portsEntry := pe2, attempts := ats,
          gooseOpenErr := go, setDialectErr := sd, gooseUpErr := gu }).2.1 ∧
      Event.cleanupRegistered ∉ (RunMySQLTestContainer m
        { newClientErr := none, imagePullErr := none, copyErr := none,
          newStringErr := none, ulid := ulid, createErr := none, startErr := none,
          stopOutcome := o, inspectErr := none, portsEntry := pe2, attempts := ats,
          gooseOpenErr := go, setDialectErr := sd, gooseUpErr := gu }).2.1) := by
  constructor
  · refine ⟨by simp [RunMySQLTestContainer], ?_, ?_, ?_⟩
    · intro tmo
      simp [RunMySQLTestContainer, createEvent]
    · simp [RunMySQLTestContainer, createEvent]
    · simp [RunMySQLTestContainer, createEvent]
  · rintro pe2 (rfl | rfl)
    · refine ⟨by simp [RunMySQLTestContainer], ?_, ?_, ?_⟩
      · intro tmo
        simp [RunMySQLTestContainer, createEvent]
      · simp [RunMySQLTestContainer, createEvent]
      · simp [RunMySQLTestContainer, createEvent]
    · refine ⟨by simp [RunMySQLTestContainer], ?_, ?_, ?_⟩
      · intro tmo
        simp [RunMySQLTestContainer, createEvent]
      · simp [RunMySQLTestContainer, createEvent]
      · simp [RunMySQLTestContainer, createEvent]

/-- Witness for C10's quantified port-mapping part at concrete inputs. -/
theorem mysql_pre_port_discovery_failure_no_stop_witness :
    (RunMySQLTestContainer NewMySQLTestContainer
        { newClientErr := none, imagePullErr := none, copyErr := none,
          newStringErr := none, ulid := "u", createErr := none, startErr := none,
          stopOutcome := StopOutcome.ok, inspectErr := none, portsEntry := none,
          attempts := [], gooseOpenErr := none, setDialectErr := none,
          gooseUpErr := none }).2.2
      = RunResult.fatal "failed to get host port mapping from mysql container" :=
  ((mysql_pre_port_discovery_failure_no_stop NewMySQLTestContainer "u" "x"
      StopOutcome.ok none [] none none none).2 none (Or.inl rfl)).1
